import Mathlib

/-!
The module `truffle-config.js`.

A shallow embedding of `src/truffle-config.js`, the only source file of the
repository.  The file evaluates, in order,

* `require('@truffle/hdwallet-provider')` and `require('dotenv')`,
* `dotenv.config()`,
* the destructuring `const { INFURA_API_URL, MNEMONIC, ETHERSCAN_API_KEY } = process.env`,
* the object literal assigned to `module.exports`.

JavaScript values are embedded as a first-order tree, object literals as the
ordered list of their own properties, so that the name of every property is
part of the model.
-/

namespace TruffleConfig

/-- JavaScript values occurring in the configuration object.

* `number` holds the numeric literals of the file, all of which are integers;
* `object` is an object literal: its own properties in source order;
* `arrowNew C args` is the arrow function `() => new C(a1, ..., an)` whose free
  variables are `const` bindings holding the values `args`;
* `ref C n` is the instance of class `C` created by the `n`-th evaluation of a
  `new` expression (object identity). -/
inductive JsValue where
  | undefined : JsValue
  | boolean : Bool → JsValue
  | number : Int → JsValue
  | string : String → JsValue
  | array : List JsValue → JsValue
  | object : List (String × JsValue) → JsValue
  | arrowNew : String → List JsValue → JsValue
  | ref : String → Nat → JsValue

/-- The state of `process.env`: every variable is either absent or a string. -/
abbrev ProcessEnv := String → Option String

/-- Reading `process.env.NAME`: an absent variable reads as `undefined`. -/
def readEnv (env : ProcessEnv) (name : String) : JsValue :=
  match env name with
  | some s => JsValue.string s
  | none => JsValue.undefined

/-- An own property of an object literal, `none` when the value has no own
property of that name.  No object literal of the file repeats a key, so the
first entry of a name is the only one. -/
def JsValue.getOwn : JsValue → String → Option JsValue
  | JsValue.object fields, k => fields.lookup k
  | _, _ => none

/-- Following a path of property names through nested object literals. -/
def JsValue.getPath : JsValue → List String → Option JsValue
  | v, [] => some v
  | v, k :: ks =>
    match v.getOwn k with
    | some c => c.getPath ks
    | none => none

/-- JavaScript `ToBoolean`. -/
def JsValue.toBoolean : JsValue → Bool
  | JsValue.undefined => false
  | JsValue.boolean b => b
  | JsValue.number n => n != 0
  | JsValue.string s => s != ""
  | JsValue.array _ => true
  | JsValue.object _ => true
  | JsValue.arrowNew _ _ => true
  | JsValue.ref _ _ => true

/-- The part of the outside world the file can act on: the log of every
`new C(args)` evaluated so far, oldest first. -/
structure World where
  constructed : List (String × List JsValue)

/-- The class exported by `@truffle/hdwallet-provider`, which is not part of
the repository: its constructor body either completes or throws a value. -/
abbrev Constructor := List JsValue → Except JsValue Unit

/-- Calling a value with no arguments.  For `() => new C(args)` the `new`
expression is evaluated: the construction is logged, and the call returns the
freshly created instance unless the constructor throws.  Calling anything else
is a `TypeError`. -/
def callFunction (HDWalletProvider : Constructor) (f : JsValue) (w : World) :
    Except JsValue JsValue × World :=
  match f with
  | JsValue.arrowNew cls args =>
    match HDWalletProvider args with
    | Except.ok _ =>
      (Except.ok (JsValue.ref cls w.constructed.length), ⟨w.constructed ++ [(cls, args)]⟩)
    | Except.error e =>
      (Except.error e, ⟨w.constructed ++ [(cls, args)]⟩)
  | _ => (Except.error (JsValue.string "TypeError: not a function"), w)

/-- The object literal of lines 9-40, as a function of the three `const`
bindings of line 7. -/
def moduleExports (INFURA_API_URL MNEMONIC ETHERSCAN_API_KEY : JsValue) : JsValue :=
  JsValue.object [
    ("networks", JsValue.object [
      ("development", JsValue.object [
        ("host", JsValue.string "127.0.0.1"),
        ("port", JsValue.number 7545),
        ("network_id", JsValue.string "*")]),
      ("ropsten", JsValue.object [
        ("provider", JsValue.arrowNew "HDWalletProvider" [MNEMONIC, INFURA_API_URL]),
        ("network_id", JsValue.number 3),
        ("gas", JsValue.number 5500000),
        ("networkCheckTimeoutnetworkCheckTimeout", JsValue.number 10000),
        ("timeoutBlocks", JsValue.number 200)])]),
    ("compilers", JsValue.object [
      ("solc", JsValue.object [
        ("version", JsValue.string "0.8.15"),
        ("settings", JsValue.object [
          ("optimizer", JsValue.object [
            ("enabled", JsValue.boolean true),
            ("runs", JsValue.number 200)])])])]),
    ("plugins", JsValue.array [
      JsValue.string "truffle-plugin-verify",
      JsValue.string "truffle-contract-size"]),
    ("api_keys", JsValue.object [
      ("etherscan", ETHERSCAN_API_KEY)])]

/-- The configuration built from the state of `process.env` that line 7 reads. -/
def configOf (env : ProcessEnv) : JsValue :=
  moduleExports (readEnv env "INFURA_API_URL") (readEnv env "MNEMONIC")
    (readEnv env "ETHERSCAN_API_KEY")

/-- The external call `dotenv.config()` of line 5, which is not part of the
repository: run on a state of `process.env` it either completes, leaving the
state of `process.env` that line 7 reads, or throws a value. -/
abbrev DotenvConfig := ProcessEnv → Except JsValue ProcessEnv

/-- Evaluating the whole module.  `dotenvConfig` is the external call
`dotenv.config()`: when it throws, the module body stops there with the thrown
value, nothing of lines 7-40 being evaluated; when it completes, the three
variables are read from the state it leaves and the object literal is built.
The result is the completion of the module body (the value of
`module.exports`, or a thrown value) and the world afterwards. -/
def loadModule (dotenvConfig : DotenvConfig) (processEnv : ProcessEnv) (w : World) :
    Except JsValue JsValue × World :=
  match dotenvConfig processEnv with
  | Except.error thrown => (Except.error thrown, w)
  | Except.ok env =>
    let INFURA_API_URL := readEnv env "INFURA_API_URL"
    let MNEMONIC := readEnv env "MNEMONIC"
    let ETHERSCAN_API_KEY := readEnv env "ETHERSCAN_API_KEY"
    (Except.ok (moduleExports INFURA_API_URL MNEMONIC ETHERSCAN_API_KEY), w)

/-- Evaluating `config.networks.ropsten.provider()`. -/
def callRopstenProvider (HDWalletProvider : Constructor) (config : JsValue) (w : World) :
    Except JsValue JsValue × World :=
  match config.getPath ["networks", "ropsten", "provider"] with
  | some f => callFunction HDWalletProvider f w
  | none => (Except.error (JsValue.string "TypeError: not a function"), w)

/-- A stand-in for the external class, used to instantiate statements: the
constructor throws unless it is given two non-empty strings. -/
def sampleProvider : Constructor
  | [JsValue.string m, JsValue.string u] =>
    if m ≠ "" ∧ u ≠ "" then Except.ok () else Except.error (JsValue.string "Error: invalid argument")
  | _ => Except.error (JsValue.string "Error: invalid argument")

/-- A state of `process.env` holding only the three variables the file reads. -/
def sampleEnv : ProcessEnv := fun name =>
  if name = "MNEMONIC" then some "test test test test test test test test test test test junk"
  else if name = "INFURA_API_URL" then some "https://ropsten.infura.io/v3/0123456789abcdef"
  else if name = "ETHERSCAN_API_KEY" then some "ABCDEF0123456789"
  else none

/-- The state `sampleEnv` with one further, unrelated variable set. -/
def sampleEnvWithPath : ProcessEnv := fun name =>
  if name = "PATH" then some "/usr/local/bin:/usr/bin" else sampleEnv name

/-- A stand-in for `dotenv.config()`, used to instantiate statements: with
`DOTENV_KEY` set it throws (an encrypted vault that the key does not open),
otherwise it completes and leaves `process.env` as it was (no `.env` file). -/
def sampleDotenv : DotenvConfig := fun env =>
  match env "DOTENV_KEY" with
  | some _ => Except.error (JsValue.string "Error: INVALID_DOTENV_KEY")
  | none => Except.ok env

/-- A state of `process.env` in which none of the three variables the file
reads is set, while `DOTENV_KEY` is. -/
def sampleVaultEnv : ProcessEnv := fun name =>
  if name = "DOTENV_KEY" then some "dotenv://:key_0123@dotenv.org/vault/.env.vault?environment=production"
  else none

/-- The property reached by `path` depends on the environment: two states of
`process.env` give configurations that differ there. -/
def DependsOnEnv (path : List String) : Prop :=
  ∃ env₁ env₂ : ProcessEnv, (configOf env₁).getPath path ≠ (configOf env₂).getPath path

/-- The paths leading to the two places of the object literal where a `const`
of line 7 occurs, `networks.ropsten.provider` and `api_keys.etherscan`,
together with the objects enclosing them. -/
def environmentPaths : List (List String) :=
  [[], ["networks"], ["networks", "ropsten"], ["networks", "ropsten", "provider"],
   ["api_keys"], ["api_keys", "etherscan"]]

/-! ## The module body -/

theorem loadModule_eq (dotenvConfig : DotenvConfig) (processEnv : ProcessEnv) (w : World) :
    loadModule dotenvConfig processEnv w = ((dotenvConfig processEnv).map configOf, w) := by
  cases h : dotenvConfig processEnv <;> simp [loadModule, h, Except.map, configOf]

theorem loadModule_of_ok (dotenvConfig : DotenvConfig) (processEnv env : ProcessEnv) (w : World)
    (hdotenv : dotenvConfig processEnv = Except.ok env) :
    loadModule dotenvConfig processEnv w = (Except.ok (configOf env), w) := by
  rw [loadModule_eq, hdotenv]
  rfl

theorem loadModule_of_error (dotenvConfig : DotenvConfig) (processEnv : ProcessEnv) (w : World)
    (thrown : JsValue) (hdotenv : dotenvConfig processEnv = Except.error thrown) :
    loadModule dotenvConfig processEnv w = (Except.error thrown, w) := by
  rw [loadModule_eq, hdotenv]
  rfl

theorem loadModule_world (dotenvConfig : DotenvConfig) (processEnv : ProcessEnv) (w : World) :
    (loadModule dotenvConfig processEnv w).2 = w := by
  rw [loadModule_eq]

theorem callRopstenProvider_configOf (HDWalletProvider : Constructor) (env : ProcessEnv)
    (w : World) :
    callRopstenProvider HDWalletProvider (configOf env) w =
      callFunction HDWalletProvider
        (JsValue.arrowNew "HDWalletProvider" [readEnv env "MNEMONIC", readEnv env "INFURA_API_URL"])
        w :=
  rfl

theorem callFunction_world (HDWalletProvider : Constructor) (cls : String) (args : List JsValue)
    (w : World) :
    (callFunction HDWalletProvider (JsValue.arrowNew cls args) w).2.constructed =
      w.constructed ++ [(cls, args)] := by
  cases h : HDWalletProvider args <;> simp [callFunction, h]

theorem callFunction_result (HDWalletProvider : Constructor) (cls : String) (args : List JsValue)
    (w : World) :
    (callFunction HDWalletProvider (JsValue.arrowNew cls args) w).1 =
      (HDWalletProvider args).map (fun _ => JsValue.ref cls w.constructed.length) := by
  cases h : HDWalletProvider args <;> simp [callFunction, h, Except.map]

/-! ## Constant parts of the configuration -/

/-- C1: for every state of the environment, whatever state `dotenv.config()`
leaves when it completes, the module body completes with a configuration whose
`compilers.solc.settings.optimizer.enabled` is `true` and whose
`compilers.solc.settings.optimizer.runs` is `200`. -/
theorem optimizer_enabled_and_runs (dotenvConfig : DotenvConfig)
    (processEnv env : ProcessEnv) (w : World)
    (hdotenv : dotenvConfig processEnv = Except.ok env) :
    ∃ config, (loadModule dotenvConfig processEnv w).1 = Except.ok config ∧
      config.getPath ["compilers", "solc", "settings", "optimizer", "enabled"]
        = some (JsValue.boolean true) ∧
      config.getPath ["compilers", "solc", "settings", "optimizer", "runs"]
        = some (JsValue.number 200) := by
  rw [loadModule_of_ok _ _ _ _ hdotenv]
  exact ⟨_, rfl, rfl, rfl⟩

theorem optimizer_enabled_and_runs_witness :
    sampleDotenv (fun _ => none) = Except.ok (fun _ => none) ∧
    ∃ config, (loadModule sampleDotenv (fun _ => none) ⟨[]⟩).1 = Except.ok config ∧
      config.getPath ["compilers", "solc", "settings", "optimizer", "enabled"]
        = some (JsValue.boolean true) ∧
      config.getPath ["compilers", "solc", "settings", "optimizer", "runs"]
        = some (JsValue.number 200) :=
  ⟨rfl, optimizer_enabled_and_runs sampleDotenv (fun _ => none) (fun _ => none) ⟨[]⟩ rfl⟩

/-- C2: for every state of the environment that `dotenv.config()` leaves when
it completes, the `plugins` property of the
exported configuration is the array of exactly two strings,
`truffle-plugin-verify` first and `truffle-contract-size` second. -/
theorem plugins_fixed_sequence (dotenvConfig : DotenvConfig)
    (processEnv env : ProcessEnv) (w : World)
    (hdotenv : dotenvConfig processEnv = Except.ok env) :
    ∃ config items, (loadModule dotenvConfig processEnv w).1 = Except.ok config ∧
      config.getPath ["plugins"] = some (JsValue.array items) ∧
      items.length = 2 ∧
      items = [JsValue.string "truffle-plugin-verify", JsValue.string "truffle-contract-size"] := by
  rw [loadModule_of_ok _ _ _ _ hdotenv]
  exact ⟨_, _, rfl, rfl, rfl, rfl⟩

theorem plugins_fixed_sequence_witness :
    sampleDotenv sampleEnv = Except.ok sampleEnv ∧
    ∃ config items, (loadModule sampleDotenv sampleEnv ⟨[]⟩).1 = Except.ok config ∧
      config.getPath ["plugins"] = some (JsValue.array items) ∧
      items.length = 2 ∧
      items = [JsValue.string "truffle-plugin-verify", JsValue.string "truffle-contract-size"] :=
  ⟨rfl, plugins_fixed_sequence sampleDotenv sampleEnv sampleEnv ⟨[]⟩ rfl⟩

/-! ## The API key -/

/-- C3, as stated, fails: with `ETHERSCAN_API_KEY` unset (and `MNEMONIC` and
`INFURA_API_URL` unset too) the module body does not complete when the call
`dotenv.config()` of line 5 throws; the thrown value leaves the module. -/
theorem module_throws_when_dotenv_throws :
    sampleVaultEnv "ETHERSCAN_API_KEY" = none ∧
    sampleVaultEnv "MNEMONIC" = none ∧
    sampleVaultEnv "INFURA_API_URL" = none ∧
    (loadModule sampleDotenv sampleVaultEnv ⟨[]⟩).1
      = Except.error (JsValue.string "Error: INVALID_DOTENV_KEY") ∧
    ¬ ∃ config, (loadModule sampleDotenv sampleVaultEnv ⟨[]⟩).1 = Except.ok config := by
  refine ⟨by decide, by decide, by decide, rfl, ?_⟩
  rintro ⟨config, h⟩
  have herr : (loadModule sampleDotenv sampleVaultEnv ⟨[]⟩).1
      = Except.error (JsValue.string "Error: INVALID_DOTENV_KEY") := rfl
  rw [herr] at h
  cases h

/-- C3, amended: when the call `dotenv.config()` of line 5 completes and
`ETHERSCAN_API_KEY` is absent from the environment it leaves, the one line 7
reads, whatever the other variables are, the module body completes without
throwing, and `api_keys.etherscan` of the result is `undefined`, a falsy value. -/
theorem etherscan_unset_is_undefined (dotenvConfig : DotenvConfig)
    (processEnv env : ProcessEnv) (w : World)
    (hdotenv : dotenvConfig processEnv = Except.ok env)
    (hunset : env "ETHERSCAN_API_KEY" = none) :
    ∃ config v, (loadModule dotenvConfig processEnv w).1 = Except.ok config ∧
      config.getPath ["api_keys", "etherscan"] = some v ∧
      v = JsValue.undefined ∧ v.toBoolean = false := by
  rw [loadModule_of_ok _ _ _ _ hdotenv]
  refine ⟨_, JsValue.undefined, rfl, ?_, rfl, rfl⟩
  show some (readEnv env "ETHERSCAN_API_KEY") = some JsValue.undefined
  simp [readEnv, hunset]

theorem etherscan_unset_is_undefined_witness :
    sampleDotenv (fun _ => none) = Except.ok (fun _ => none) ∧
    (fun _ => none : ProcessEnv) "ETHERSCAN_API_KEY" = none ∧
    ∃ config v, (loadModule sampleDotenv (fun _ => none) ⟨[]⟩).1 = Except.ok config ∧
      config.getPath ["api_keys", "etherscan"] = some v ∧
      v = JsValue.undefined ∧ v.toBoolean = false :=
  ⟨rfl, rfl,
    etherscan_unset_is_undefined sampleDotenv (fun _ => none) (fun _ => none) ⟨[]⟩ rfl rfl⟩

/-- C5: when `ETHERSCAN_API_KEY` holds the string `s` in the environment that
line 7 reads, the one `dotenv.config()` leaves when it completes,
`api_keys.etherscan` of the exported configuration is the string `s` itself,
whatever `s` is. -/
theorem etherscan_passed_through (dotenvConfig : DotenvConfig)
    (processEnv env : ProcessEnv) (w : World) (s : String)
    (hdotenv : dotenvConfig processEnv = Except.ok env)
    (hset : env "ETHERSCAN_API_KEY" = some s) :
    ∃ config, (loadModule dotenvConfig processEnv w).1 = Except.ok config ∧
      config.getPath ["api_keys", "etherscan"] = some (JsValue.string s) := by
  rw [loadModule_of_ok _ _ _ _ hdotenv]
  refine ⟨_, rfl, ?_⟩
  show some (readEnv env "ETHERSCAN_API_KEY") = some (JsValue.string s)
  simp [readEnv, hset]

theorem etherscan_passed_through_witness :
    (fun name => if name = "ETHERSCAN_API_KEY" then some "" else none : ProcessEnv)
        "ETHERSCAN_API_KEY" = some "" ∧
    ∃ config, (loadModule sampleDotenv
        (fun name => if name = "ETHERSCAN_API_KEY" then some "" else none) ⟨[]⟩).1
          = Except.ok config ∧
      config.getPath ["api_keys", "etherscan"] = some (JsValue.string "") :=
  ⟨rfl, etherscan_passed_through sampleDotenv _ _ ⟨[]⟩ "" rfl rfl⟩

/-! ## The ropsten descriptor -/

/-- C4: for every state of the environment that `dotenv.config()` leaves when
it completes, the ropsten descriptor has no property named
`networkCheckTimeout`; the value `10000` is stored under the name
`networkCheckTimeoutnetworkCheckTimeout`, while `timeoutBlocks` is `200`. -/
theorem ropsten_timeout_properties (dotenvConfig : DotenvConfig)
    (processEnv env : ProcessEnv) (w : World)
    (hdotenv : dotenvConfig processEnv = Except.ok env) :
    ∃ config, (loadModule dotenvConfig processEnv w).1 = Except.ok config ∧
      config.getPath ["networks", "ropsten", "networkCheckTimeout"] = none ∧
      config.getPath ["networks", "ropsten", "networkCheckTimeoutnetworkCheckTimeout"]
        = some (JsValue.number 10000) ∧
      config.getPath ["networks", "ropsten", "timeoutBlocks"] = some (JsValue.number 200) := by
  rw [loadModule_of_ok _ _ _ _ hdotenv]
  exact ⟨_, rfl, rfl, rfl, rfl⟩

theorem ropsten_timeout_properties_witness :
    sampleDotenv (fun _ => none) = Except.ok (fun _ => none) ∧
    ∃ config, (loadModule sampleDotenv (fun _ => none) ⟨[]⟩).1 = Except.ok config ∧
      config.getPath ["networks", "ropsten", "networkCheckTimeout"] = none ∧
      config.getPath ["networks", "ropsten", "networkCheckTimeoutnetworkCheckTimeout"]
        = some (JsValue.number 10000) ∧
      config.getPath ["networks", "ropsten", "timeoutBlocks"] = some (JsValue.number 200) :=
  ⟨rfl, ropsten_timeout_properties sampleDotenv (fun _ => none) (fun _ => none) ⟨[]⟩ rfl⟩

theorem readEnv_update_other (env : ProcessEnv) (changed : String) (value : Option String)
    (name : String) (hne : name ≠ changed) :
    readEnv (Function.update env changed value) name = readEnv env name := by
  simp [readEnv, Function.update, hne]

/-- C8: for every state of the environment that `dotenv.config()` leaves when
it completes, a call of `networks.ropsten.provider()` evaluates one
`new HDWalletProvider(...)` whose argument list is exactly the value read for
`MNEMONIC` followed by the value read for `INFURA_API_URL` (`undefined` for an
absent variable); replacing the value of `ETHERSCAN_API_KEY` by any other
value, or removing it, changes nothing of the call. -/
theorem provider_call_arguments (HDWalletProvider : Constructor)
    (dotenvConfig : DotenvConfig) (processEnv env : ProcessEnv) (w callWorld : World)
    (key : Option String)
    (hdotenv : dotenvConfig processEnv = Except.ok env) :
    ∃ config, (loadModule dotenvConfig processEnv w).1 = Except.ok config ∧
      (callRopstenProvider HDWalletProvider config callWorld).2.constructed =
        callWorld.constructed ++
          [("HDWalletProvider", [readEnv env "MNEMONIC", readEnv env "INFURA_API_URL"])] ∧
      callRopstenProvider HDWalletProvider
          (configOf (Function.update env "ETHERSCAN_API_KEY" key)) callWorld =
        callRopstenProvider HDWalletProvider config callWorld := by
  rw [loadModule_of_ok _ _ _ _ hdotenv]
  refine ⟨configOf env, rfl, ?_, ?_⟩
  · rw [callRopstenProvider_configOf, callFunction_world]
  · rw [callRopstenProvider_configOf, callRopstenProvider_configOf,
      readEnv_update_other _ _ _ _ (by decide), readEnv_update_other _ _ _ _ (by decide)]

theorem provider_call_arguments_witness :
    sampleDotenv sampleEnv = Except.ok sampleEnv ∧
    ∃ config, (loadModule sampleDotenv sampleEnv ⟨[]⟩).1 = Except.ok config ∧
      (callRopstenProvider sampleProvider config ⟨[]⟩).2.constructed =
        (⟨[]⟩ : World).constructed ++
          [("HDWalletProvider",
            [readEnv sampleEnv "MNEMONIC", readEnv sampleEnv "INFURA_API_URL"])] ∧
      callRopstenProvider sampleProvider
          (configOf (Function.update sampleEnv "ETHERSCAN_API_KEY" none)) ⟨[]⟩ =
        callRopstenProvider sampleProvider config ⟨[]⟩ :=
  ⟨rfl, provider_call_arguments sampleProvider sampleDotenv sampleEnv sampleEnv ⟨[]⟩ ⟨[]⟩
    none rfl⟩

/-- C7: take the wallet library at its contract, a constructor that completes
on every well-formed mnemonic paired with a well-formed URL.  Then for every
environment, as `dotenv.config()` leaves it when it completes, holding a
well-formed mnemonic, a well-formed URL and an API key, the module body
completes and a call of `networks.ropsten.provider()` returns a provider
instead of throwing. -/
theorem provider_does_not_throw (HDWalletProvider : Constructor)
    (validMnemonic validUrl : String → Prop)
    (hlibrary : ∀ m u, validMnemonic m → validUrl u →
      HDWalletProvider [JsValue.string m, JsValue.string u] = Except.ok ())
    (dotenvConfig : DotenvConfig) (processEnv env : ProcessEnv) (w callWorld : World)
    (m u k : String)
    (hdotenv : dotenvConfig processEnv = Except.ok env)
    (hm : env "MNEMONIC" = some m)
    (hu : env "INFURA_API_URL" = some u)
    (_hk : env "ETHERSCAN_API_KEY" = some k)
    (vm : validMnemonic m) (vu : validUrl u) :
    ∃ config provider, (loadModule dotenvConfig processEnv w).1 = Except.ok config ∧
      (callRopstenProvider HDWalletProvider config callWorld).1 = Except.ok provider := by
  rw [loadModule_of_ok _ _ _ _ hdotenv]
  refine ⟨configOf env, JsValue.ref "HDWalletProvider" callWorld.constructed.length, rfl, ?_⟩
  rw [callRopstenProvider_configOf, callFunction_result]
  simp [readEnv, hm, hu, hlibrary m u vm vu, Except.map]

theorem provider_does_not_throw_witness :
    ∃ config provider, (loadModule sampleDotenv sampleEnv ⟨[]⟩).1 = Except.ok config ∧
      (callRopstenProvider sampleProvider config ⟨[]⟩).1 = Except.ok provider :=
  provider_does_not_throw sampleProvider (fun m => m ≠ "") (fun u => u ≠ "")
    (by intro m u hm hu; simp [sampleProvider, hm, hu])
    sampleDotenv sampleEnv sampleEnv ⟨[]⟩ ⟨[]⟩
    "test test test test test test test test test test test junk"
    "https://ropsten.infura.io/v3/0123456789abcdef"
    "ABCDEF0123456789"
    rfl (by decide) (by decide) (by decide) (by decide) (by decide)

/-! ## Dependence on the environment -/

/-- C9: two environments, each as `dotenv.config()` leaves it when it
completes, that agree on `INFURA_API_URL`, `MNEMONIC` and `ETHERSCAN_API_KEY`
give the same result of the module body, hence equal configurations, and a
call of the ropsten provider factory does the same in both: same logged
constructor arguments, same completion. -/
theorem config_determined_by_three_variables (HDWalletProvider : Constructor)
    (dotenvConfig₁ dotenvConfig₂ : DotenvConfig)
    (processEnv₁ processEnv₂ env₁ env₂ : ProcessEnv) (w callWorld : World)
    (hdotenv₁ : dotenvConfig₁ processEnv₁ = Except.ok env₁)
    (hdotenv₂ : dotenvConfig₂ processEnv₂ = Except.ok env₂)
    (hurl : env₁ "INFURA_API_URL" = env₂ "INFURA_API_URL")
    (hmnemonic : env₁ "MNEMONIC" = env₂ "MNEMONIC")
    (hkey : env₁ "ETHERSCAN_API_KEY" = env₂ "ETHERSCAN_API_KEY") :
    loadModule dotenvConfig₁ processEnv₁ w = loadModule dotenvConfig₂ processEnv₂ w ∧
    ∃ config₁ config₂,
      (loadModule dotenvConfig₁ processEnv₁ w).1 = Except.ok config₁ ∧
      (loadModule dotenvConfig₂ processEnv₂ w).1 = Except.ok config₂ ∧
      config₁ = config₂ ∧
      callRopstenProvider HDWalletProvider config₁ callWorld =
        callRopstenProvider HDWalletProvider config₂ callWorld := by
  have hcfg : configOf env₁ = configOf env₂ := by
    simp only [configOf, readEnv, hurl, hmnemonic, hkey]
  rw [loadModule_of_ok _ _ _ _ hdotenv₁, loadModule_of_ok _ _ _ _ hdotenv₂]
  refine ⟨?_, configOf env₁, configOf env₂, rfl, rfl, hcfg, ?_⟩
  · rw [hcfg]
  · rw [hcfg]

theorem config_determined_by_three_variables_witness :
    sampleEnv "PATH" ≠ sampleEnvWithPath "PATH" ∧
    loadModule sampleDotenv sampleEnv ⟨[]⟩ = loadModule sampleDotenv sampleEnvWithPath ⟨[]⟩ ∧
    ∃ config₁ config₂,
      (loadModule sampleDotenv sampleEnv ⟨[]⟩).1 = Except.ok config₁ ∧
      (loadModule sampleDotenv sampleEnvWithPath ⟨[]⟩).1 = Except.ok config₂ ∧
      config₁ = config₂ ∧
      callRopstenProvider sampleProvider config₁ ⟨[]⟩ =
        callRopstenProvider sampleProvider config₂ ⟨[]⟩ :=
  ⟨by decide,
    config_determined_by_three_variables sampleProvider sampleDotenv sampleDotenv
      sampleEnv sampleEnvWithPath sampleEnv sampleEnvWithPath ⟨[]⟩ ⟨[]⟩
      rfl rfl (by decide) (by decide) (by decide)⟩

theorem readEnv_getPath_cons (env : ProcessEnv) (name k : String) (ks : List String) :
    (readEnv env name).getPath (k :: ks) = none := by
  unfold readEnv
  cases env name <;> rfl

theorem getPath_constant_off_environmentPaths (env₁ env₂ : ProcessEnv) (path : List String) :
    path ∈ environmentPaths ∨ (configOf env₁).getPath path = (configOf env₂).getPath path := by
  unfold configOf
  rcases path with _ | ⟨k1, r1⟩
  · left; simp [environmentPaths]
  by_cases h1 : k1 = "networks"
  · subst h1
    rcases r1 with _ | ⟨k2, r2⟩
    · left; simp [environmentPaths]
    by_cases h2 : k2 = "ropsten"
    · subst h2
      rcases r2 with _ | ⟨k3, r3⟩
      · left; simp [environmentPaths]
      by_cases h3 : k3 = "provider"
      · subst h3
        rcases r3 with _ | ⟨k4, r4⟩
        · left; simp [environmentPaths]
        · right; rfl
      · right
        have hb : (k3 == "provider") = false := by simpa using h3
        simp [moduleExports, JsValue.getPath, JsValue.getOwn, List.lookup, hb]
    · right
      have hb : (k2 == "ropsten") = false := by simpa using h2
      simp [moduleExports, JsValue.getPath, JsValue.getOwn, List.lookup, hb]
  by_cases h1a : k1 = "api_keys"
  · subst h1a
    rcases r1 with _ | ⟨k2, r2⟩
    · left; simp [environmentPaths]
    by_cases h2 : k2 = "etherscan"
    · subst h2
      rcases r2 with _ | ⟨k3, r3⟩
      · left; simp [environmentPaths]
      · right
        show (readEnv env₁ "ETHERSCAN_API_KEY").getPath (k3 :: r3)
          = (readEnv env₂ "ETHERSCAN_API_KEY").getPath (k3 :: r3)
        rw [readEnv_getPath_cons, readEnv_getPath_cons]
    · right
      have hb : (k2 == "etherscan") = false := by simpa using h2
      simp [moduleExports, JsValue.getPath, JsValue.getOwn, List.lookup, hb]
  · right
    have hb : (k1 == "networks") = false := by simpa using h1
    have hb₂ : (k1 == "api_keys") = false := by simpa using h1a
    simp [moduleExports, JsValue.getPath, JsValue.getOwn, List.lookup, hb, hb₂]

theorem provider_dependsOnEnv : DependsOnEnv ["networks", "ropsten", "provider"] := by
  refine ⟨fun _ => none, sampleEnv, ?_⟩
  show some (JsValue.arrowNew "HDWalletProvider"
      [readEnv (fun _ => none) "MNEMONIC", readEnv (fun _ => none) "INFURA_API_URL"])
    ≠ some (JsValue.arrowNew "HDWalletProvider"
      [readEnv sampleEnv "MNEMONIC", readEnv sampleEnv "INFURA_API_URL"])
  simp [readEnv, sampleEnv]

theorem etherscan_dependsOnEnv : DependsOnEnv ["api_keys", "etherscan"] := by
  refine ⟨fun _ => none, sampleEnv, ?_⟩
  show some (readEnv (fun _ => none) "ETHERSCAN_API_KEY")
    ≠ some (readEnv sampleEnv "ETHERSCAN_API_KEY")
  simp [readEnv, sampleEnv]

theorem network_field_dependsOnEnv_iff (name field : String) :
    DependsOnEnv ["networks", name, field] ↔ name = "ropsten" ∧ field = "provider" := by
  constructor
  · rintro ⟨env₁, env₂, hne⟩
    rcases getPath_constant_off_environmentPaths env₁ env₂ ["networks", name, field] with h | h
    · simpa [environmentPaths] using h
    · exact absurd h hne
  · rintro ⟨rfl, rfl⟩
    exact provider_dependsOnEnv

theorem network_dependent_fields_eq :
    {p : String × String | DependsOnEnv ["networks", p.1, p.2]} = {("ropsten", "provider")} := by
  ext ⟨name, field⟩
  simp [network_field_dependsOnEnv_iff]

/-- C6, as stated, fails: the properties of the descriptors under `networks`
whose value depends on the environment do not number two. -/
theorem network_dependent_fields_not_two :
    Set.ncard {p : String × String | DependsOnEnv ["networks", p.1, p.2]} ≠ 2 := by
  rw [network_dependent_fields_eq, Set.ncard_singleton]
  decide

/-- C6, amended: exactly one property of the descriptors under `networks`
depends on the environment, `networks.ropsten.provider`, whose factory holds
the values read for `MNEMONIC` and `INFURA_API_URL`; `api_keys.etherscan`
depends on the environment as well; and every path of the configuration other
than these two and the objects enclosing them leads to the same value, or to
no value, in every environment. -/
theorem environment_populates_provider_and_api_key :
    (∀ name field : String,
      DependsOnEnv ["networks", name, field] ↔ name = "ropsten" ∧ field = "provider") ∧
    Set.ncard {p : String × String | DependsOnEnv ["networks", p.1, p.2]} = 1 ∧
    (∀ env : ProcessEnv, (configOf env).getPath ["networks", "ropsten", "provider"] =
      some (JsValue.arrowNew "HDWalletProvider"
        [readEnv env "MNEMONIC", readEnv env "INFURA_API_URL"])) ∧
    DependsOnEnv ["api_keys", "etherscan"] ∧
    (∀ env : ProcessEnv, (configOf env).getPath ["api_keys", "etherscan"] =
      some (readEnv env "ETHERSCAN_API_KEY")) ∧
    (∀ (dotenvConfig : DotenvConfig) (processEnv : ProcessEnv) (w : World),
      loadModule dotenvConfig processEnv w = ((dotenvConfig processEnv).map configOf, w)) ∧
    (∀ (env₁ env₂ : ProcessEnv) (path : List String),
      path ∈ environmentPaths ∨
        (configOf env₁).getPath path = (configOf env₂).getPath path) := by
  refine ⟨network_field_dependsOnEnv_iff, ?_, fun _ => rfl, etherscan_dependsOnEnv,
    fun _ => rfl, loadModule_eq, getPath_constant_off_environmentPaths⟩
  rw [network_dependent_fields_eq, Set.ncard_singleton]

/-! ## Laziness of the provider -/

/-- C10: the module body leaves the world unchanged, so it evaluates no
`new HDWalletProvider(...)`, for every state of the environment and whether
`dotenv.config()` completes or throws; when `dotenv.config()` completes the
module body completes too, whatever the constructor would do with the values
read.  Each call of `networks.ropsten.provider()` evaluates exactly one
construction: the log grows by one per call, the call completes as the
constructor does, a completed call returns the instance created by that very
construction, and no value is returned by two successive calls. -/
theorem provider_built_lazily (HDWalletProvider : Constructor)
    (dotenvConfig : DotenvConfig) (processEnv env : ProcessEnv) (w callWorld : World)
    (hdotenv : dotenvConfig processEnv = Except.ok env) :
    (∀ (anyDotenv : DotenvConfig) (anyEnv : ProcessEnv) (anyWorld : World),
      (loadModule anyDotenv anyEnv anyWorld).2 = anyWorld) ∧
    ∃ config, loadModule dotenvConfig processEnv w = (Except.ok config, w) ∧
      (callRopstenProvider HDWalletProvider config callWorld).2.constructed.length =
        callWorld.constructed.length + 1 ∧
      (callRopstenProvider HDWalletProvider config
        (callRopstenProvider HDWalletProvider config callWorld).2).2.constructed.length =
        callWorld.constructed.length + 2 ∧
      (callRopstenProvider HDWalletProvider config callWorld).1 =
        (HDWalletProvider [readEnv env "MNEMONIC", readEnv env "INFURA_API_URL"]).map
          (fun _ => JsValue.ref "HDWalletProvider" callWorld.constructed.length) ∧
      (callRopstenProvider HDWalletProvider config
        (callRopstenProvider HDWalletProvider config callWorld).2).1 =
        (HDWalletProvider [readEnv env "MNEMONIC", readEnv env "INFURA_API_URL"]).map
          (fun _ => JsValue.ref "HDWalletProvider" (callWorld.constructed.length + 1)) ∧
      ¬ ∃ v, (callRopstenProvider HDWalletProvider config callWorld).1 = Except.ok v ∧
        (callRopstenProvider HDWalletProvider config
          (callRopstenProvider HDWalletProvider config callWorld).2).1 = Except.ok v := by
  refine ⟨loadModule_world, configOf env, loadModule_of_ok _ _ _ _ hdotenv, ?_, ?_, ?_, ?_, ?_⟩
  · rw [callRopstenProvider_configOf, callFunction_world]
    simp
  · rw [callRopstenProvider_configOf, callFunction_world, callRopstenProvider_configOf,
      callFunction_world]
    simp
  · rw [callRopstenProvider_configOf, callFunction_result]
  · rw [callRopstenProvider_configOf, callFunction_result, callRopstenProvider_configOf,
      callFunction_world]
    simp
  · rintro ⟨v, h1, h2⟩
    rw [callRopstenProvider_configOf, callFunction_result] at h1
    rw [callRopstenProvider_configOf, callFunction_result, callRopstenProvider_configOf,
      callFunction_world] at h2
    cases hc : HDWalletProvider [readEnv env "MNEMONIC", readEnv env "INFURA_API_URL"] with
    | error e => simp [hc, Except.map] at h1
    | ok u =>
      simp only [hc, Except.map, Except.ok.injEq] at h1 h2
      rw [← h1] at h2
      simp at h2

theorem provider_built_lazily_witness :
    sampleDotenv (fun _ => none) = Except.ok (fun _ => none) ∧
    ∃ config, loadModule sampleDotenv (fun _ => none) ⟨[]⟩ = (Except.ok config, ⟨[]⟩) ∧
      (callRopstenProvider sampleProvider config ⟨[]⟩).2.constructed.length = 1 ∧
      (callRopstenProvider sampleProvider config ⟨[]⟩).1
        = Except.error (JsValue.string "Error: invalid argument") :=
  ⟨rfl,
    (provider_built_lazily sampleProvider sampleDotenv (fun _ => none) (fun _ => none)
      ⟨[]⟩ ⟨[]⟩ rfl).2.imp
      (fun _ h => ⟨h.1, by simpa using h.2.1, by rw [h.2.2.2.1]; rfl⟩)⟩

end TruffleConfig
